import Mathlib

/-!
Verification development for the StockFactorScreener core:
the earnings reconciliation / derived-metric engine (EarningsEngine.py)
and the cross-sectional z-score normalisation and composite scoring
engine (ZScoreCalculator.py).

Modelling conventions:
  * Python floats are modelled as exact rationals; the float value NaN is
    modelled by the value none of Option Rat (so a possibly-NaN float is
    an Option Rat, and a NaN-free float is a Rat).
  * The numpy square root (np.sqrt) and the square root inside numpy std
    are irrational on Rat, so they are passed in as an explicit function
    argument (sqrt : Rat -> Rat); theorems that need real-square-root
    behaviour take the hypothesis that sqrt vanishes exactly at zero on
    nonnegative inputs, which holds for the real square root.
  * A Python function that can raise is embedded as a function into
    Except EngineError; an uncaught exception is the error branch.
  * Python dicts that are built by insertion are modelled as association
    lists in insertion order (Python dicts preserve insertion order; the
    overwrite-on-duplicate-key behaviour only matters for duplicated
    tickers or duplicated field names, which the claims do not exercise).
  * Quote characters inside the Python error message strings are elided,
    since the message text is otherwise reproduced verbatim.
-/

/-- A cell of a pandas / numpy float column: none models NaN. -/
abbrev Cell := Option Rat

/-- Remove the NaN entries of a column, keeping order.
Models the Python list comprehensions of the form
[x for x in xs if not math.isnan(x)] and the mask-indexing column[mask]. -/
def dropNan (xs : List Cell) : List Rat := xs.filterMap id

/-- Read entry i of a column, NaN when out of range (all reads the code
performs are in range). -/
def colGet (xs : List Cell) (i : Nat) : Cell := (xs.get? i).getD none

/-- The error kinds the engine raises, by Python exception class. -/
inductive EngineError where
  | epsCalcError (msg : String)
  | netIncomeCalcError (msg : String)
  | evarCalcError (msg : String)
  | earningsGrowthCalcError (msg : String)
  | valueError (msg : String)
  | typeError (msg : String)
  deriving Repr, DecidableEq

/-- The str() rendering of an exception: its message (each custom
exception class stores a single message argument). -/
def EngineError.message : EngineError → String
  | .epsCalcError m => m
  | .netIncomeCalcError m => m
  | .evarCalcError m => m
  | .earningsGrowthCalcError m => m
  | .valueError m => m
  | .typeError m => m

/-- A Python attribute value as seen by _nan_safe: None, a finite numeric
(or numeric string, already read as its value), the float NaN, or a value
whose float() conversion raises ValueError / TypeError. -/
inductive PyVal where
  | none_
  | num (q : Rat)
  | nan
  | nonNumeric
  deriving Repr, DecidableEq

/-- Embedding of _nan_safe (ZScoreCalculator.py): convert None, NaN or a
non-numeric to NaN, else cast to float. The try/except around float()
makes it total. -/
def nan_safe : PyVal → Cell
  | .none_ => none
  | .num q => some q
  | .nan => none
  | .nonNumeric => none

/-- Mean of a nonempty list of rationals (np.mean / .mean()). -/
def listMean (xs : List Rat) : Rat := xs.sum / xs.length

/-- Population variance (ddof = 0) of a list of rationals; the numpy
population standard deviation is its square root. -/
def popVar (xs : List Rat) : Rat :=
  (xs.map (fun v => (v - listMean xs) ^ 2)).sum / xs.length

/-- Embedding of _zscore (ZScoreCalculator.py): population z-score of a
column with NaN handling. sqrt stands for the square root inside
numpy std. Fewer than 2 valid observations, or zero std, gives an
all-NaN column; otherwise each valid value v maps to (v - mu) / sigma
and the invalid positions are reset to NaN. -/
def _zscore (sqrt : Rat → Rat) (column : List Cell) : List Cell :=
  let valid := dropNan column
  if valid.length < 2 then column.map (fun _ => none)
  else
    let mu := listMean valid
    let sigma := sqrt (popVar valid)
    if sigma = 0 then column.map (fun _ => none)
    else column.map (fun c => c.map (fun v => (v - mu) / sigma))

/-- Embedding of np.nanmean over a vector: mean of the non-NaN entries,
NaN when every entry is NaN. -/
def nanmean (xs : List Cell) : Cell :=
  let v := dropNan xs
  if v.length = 0 then none else some (v.sum / v.length)

/-- Embedding of np.nanmean(rows, axis=0) over a stacked matrix of rows of
common length ncols: entry i is the nanmean of the entries at index i of
every row. -/
def nanmeanAxis0 (rows : List (List Cell)) (ncols : Nat) : List Cell :=
  (List.range ncols).map (fun i => nanmean (rows.map (fun r => colGet r i)))

/-! ## EarningsEngine.py -/

/-- The annual income statement fetched from Yahoo Finance
(stock.financials.T), as get_earnings reads it: an emptiness flag and
the two columns it may select. A column is none when its label is
absent from the schema (the columns membership test fails). -/
structure YFAnnual where
  isEmpty : Bool
  basicEPS : Option (List Cell)
  netIncome : Option (List Cell)
  deriving Repr, DecidableEq

/-- Body of the try block of get_earnings (EarningsEngine.py).
The secondary argument is the response of
fetch_earnings_alpha_vantage(av_api_key, av_base_url, ticker,
earnings_type, "annual"): none when Alpha Vantage returns no data.
The source null-checks the selected Yahoo column (eps_basic_annual_yf is
None); a pandas column selection never yields None, so that branch is
dead and has no counterpart here. A fall-through (earnings_type neither
eps nor net_income) returns Python None, embedded as .ok none. -/
def get_earnings_try (stmt : YFAnnual) (ticker : String) (earnings_type : String)
    (earnings_period_req : Nat) (secondary : Option (List Cell)) :
    Except EngineError (Option (List Rat)) :=
  if stmt.isEmpty then
    .error (.netIncomeCalcError
      s!"No Annual Income Statement data found on Yahoo Finance (Ticker: {ticker}).")
  else if earnings_type = "eps" then
    match stmt.basicEPS with
    | some col =>
      let eps_basic_annual_yf := dropNan col
      if eps_basic_annual_yf.length ≥ earnings_period_req then
        .ok (some (eps_basic_annual_yf.take earnings_period_req))
      else
        match secondary with
        | none => .ok (some eps_basic_annual_yf)
        | some avCol =>
          let eps_basic_annual_av := dropNan avCol
          if eps_basic_annual_av.length > eps_basic_annual_yf.length then
            if eps_basic_annual_av.length ≥ earnings_period_req then
              .ok (some (eps_basic_annual_av.take earnings_period_req))
            else
              .ok (some (eps_basic_annual_av.take eps_basic_annual_av.length))
          else
            .ok (some eps_basic_annual_yf)
    | none => .error (.epsCalcError s!"Cannot find Basic EPS data for {ticker}.")
  else if earnings_type = "net_income" then
    match stmt.netIncome with
    | some col =>
      let net_income_annual_yf := dropNan col
      if net_income_annual_yf.length ≥ earnings_period_req then
        .ok (some (net_income_annual_yf.take earnings_period_req))
      else
        match secondary with
        | none => .ok (some net_income_annual_yf)
        | some avCol =>
          let net_income_annual_av := dropNan avCol
          if net_income_annual_av.length > net_income_annual_yf.length then
            if net_income_annual_av.length ≥ earnings_period_req then
              .ok (some (net_income_annual_av.take earnings_period_req))
            else
              .ok (some (net_income_annual_av.take net_income_annual_av.length))
          else
            .ok (some net_income_annual_yf)
    | none => .error (.netIncomeCalcError s!"Cannot find Net Income data for {ticker}.")
  else
    .ok none

/-- Embedding of get_earnings (EarningsEngine.py): the try body wrapped by
the blanket handler, which catches every exception exc and re-raises
NetIncomeCalcError(f-string with ticker and exc) regardless of the
earnings domain. -/
def get_earnings (stmt : YFAnnual) (ticker : String) (earnings_type : String)
    (earnings_period_req : Nat) (secondary : Option (List Cell)) :
    Except EngineError (Option (List Rat)) :=
  match get_earnings_try stmt ticker earnings_type earnings_period_req secondary with
  | .ok v => .ok v
  | .error exc =>
    .error (.netIncomeCalcError s!"Error fetching Earnings ({ticker}): {exc.message}")

/-- The quarterly and annual statement columns the TTM / net-income
functions read off the yfinance stock object; a none column is one whose
label is absent from the statement. -/
structure StockFin where
  quarterlyBasicEPS : Option (List Cell)
  quarterlyNetIncome : Option (List Cell)
  annualNetIncome : Option (List Cell)
  deriving Repr, DecidableEq

/-- Embedding of calc_eps_ttm (EarningsEngine.py): sum of the first
trailing_eps_quarters valid quarterly Basic EPS values; EPSCalcError when
the column is absent or too short. The KeyError handler of the source
cannot fire (column membership is tested first), so it has no
counterpart here. -/
def calc_eps_ttm (stock : StockFin) (ticker : String)
    (trailing_eps_quarters : Nat := 4) : Except EngineError Rat :=
  match stock.quarterlyBasicEPS with
  | none =>
    .error (.epsCalcError
      s!"Cannot calculate Trailing EPS! EPS data is missing (Ticker: {ticker}).")
  | some col =>
    let basic_eps_list := dropNan col
    if basic_eps_list.length < trailing_eps_quarters then
      .error (.epsCalcError
        s!"Cannot calculate Trailing EPS! Not enough EPS data for the last {trailing_eps_quarters} quarters (Ticker: {ticker}).")
    else
      .ok (basic_eps_list.take trailing_eps_quarters).sum

/-- Python str.lower(), modelled as character-wise lowering of the string
(the period names compared against it are ASCII). -/
def pyLower (s : String) : String := ⟨s.data.map Char.toLower⟩

/-- Embedding of get_net_income (EarningsEngine.py): TTM sums the first 4
valid quarterly Net Income values, annual returns the latest valid annual
value, any other reporting_period leaves net_income = None and returns
it. Errors are ValueError as in the source. -/
def get_net_income (stock : StockFin) (ticker : String)
    (reporting_period : String := "TTM") : Except EngineError (Option Rat) :=
  if pyLower reporting_period = "ttm" then
    match stock.quarterlyNetIncome with
    | none =>
      .error (.valueError
        s!"Cannot calculate Net Income TTM! Net Income data is missing in the Quarterly Income Statement (Ticker: {ticker}).")
    | some col =>
      let net_income_list := dropNan col
      if net_income_list.length < 4 then
        .error (.valueError
          s!"Cannot calculate Net Income TTM! Not enough Net Income Quarterly data is available (Ticker: {ticker}). \n Data for at least 4 quarters is required .")
      else
        .ok (some (net_income_list.take 4).sum)
  else if pyLower reporting_period = "annual" then
    match stock.annualNetIncome with
    | none =>
      .error (.valueError
        s!"Cannot fetch Annual Net Income! Net Income data is missing in the Annual Income Statement (Ticker: {ticker}).")
    | some col =>
      let net_income_list := dropNan col
      if net_income_list.length < 1 then
        .error (.valueError
          s!"Cannot fetch Annual Net Income! No Net Income annual data is available in the Annual Income Statement (Ticker: {ticker}). \n Data for at least 1 year is required .")
      else
        .ok net_income_list.head?
  else
    .ok none

/-- Module-level minimum of calc_earnings_growth (EarningsEngine.py). -/
def MIN_EARNINGS_DATA_POINTS : Nat := 2

/-- The YoY loop of calc_earnings_growth: for each adjacent pair,
growth = (current - previous) / abs(previous), raising ZeroDivisionError
(str: float division by zero) when the denominator is zero, as Python
float division does. The first failing pair aborts the loop, matching
evaluation order. -/
def growthLoop : List Rat → Except String (List Rat)
  | cur :: prev :: rest =>
    if |prev| = 0 then .error "float division by zero"
    else
      match growthLoop (prev :: rest) with
      | .error e => .error e
      | .ok gs => .ok (((cur - prev) / |prev|) :: gs)
  | _ => .ok []

/-- Message of the no-data raise of calc_earnings_growth. -/
def growthNoDataMsg (ticker : String) : String :=
  s!"Cannot calculate Earnings Growth. No Earnings data available (Ticker: {ticker})."

/-- Message of the insufficient-data raise of calc_earnings_growth. -/
def growthInsufficientMsg (ticker : String) : String :=
  s!"Not enough data to calculate Earnings Growth (Ticker: {ticker}). At least {MIN_EARNINGS_DATA_POINTS} periods are required."

/-- Message of the blanket handler of calc_earnings_growth, wrapping
str(exc). -/
def growthWrapMsg (ticker exc : String) : String :=
  s!"Error calculating Earnings Growth for {ticker}: {exc}"

/-- Embedding of calc_earnings_growth (EarningsEngine.py). Every
exception raised inside the try block, including the two explicit
EarningsGrowthCalcError raises and a ZeroDivisionError from the loop, is
caught by the blanket handler and re-raised as EarningsGrowthCalcError
wrapping str(exc). -/
def calc_earnings_growth (ticker : String) (earnings_list : Option (List Rat)) :
    Except EngineError (List Rat) :=
  let tryBody : Except String (List Rat) :=
    match earnings_list with
    | none => .error (growthNoDataMsg ticker)
    | some es =>
      if es.length < MIN_EARNINGS_DATA_POINTS then
        .error (growthInsufficientMsg ticker)
      else
        growthLoop es
  match tryBody with
  | .ok o_earnings_growths => .ok o_earnings_growths
  | .error exc => .error (.earningsGrowthCalcError (growthWrapMsg ticker exc))

/-- Local minimum of calc_evar (EarningsEngine.py). -/
def EARNINGS_GROWTH_MIN_DATA_POINTS : Nat := 2

/-- Embedding of calc_evar (EarningsEngine.py): sample standard deviation
of the growth series with the (n - 1) divisor. sqrt stands for np.sqrt.
Over exact rationals every step of the try block is total, so the
handler that wraps a numeric failure in EVARCalcError cannot fire and
has no counterpart. The misspelling calculcate is in the source. -/
def calc_evar (sqrt : Rat → Rat) (ticker : String)
    (earnings_growths_yoy : Option (List Rat)) : Except EngineError Rat :=
  match earnings_growths_yoy with
  | none =>
    .error (.evarCalcError
      s!"Cannot calculcate EVAR. No Earnings Growth data available (Ticker: {ticker}).")
  | some gs =>
    let earnings_growth_data_points_cnt := gs.length
    if earnings_growth_data_points_cnt < EARNINGS_GROWTH_MIN_DATA_POINTS then
      .error (.evarCalcError
        s!"Not enough Earnings Growth data to calculate EVAR for {ticker}. At least {EARNINGS_GROWTH_MIN_DATA_POINTS} data points are required.")
    else
      let mean_earnings_growth := listMean gs
      let earnings_variance_sum :=
        gs.foldl (fun acc g => acc + (g - mean_earnings_growth) ^ 2) 0
      let variance :=
        earnings_variance_sum / ((earnings_growth_data_points_cnt - 1 : Nat) : Rat)
      .ok (sqrt variance)

/-! ## ZScoreCalculator.py -/

/-- Raw and z-scored values per sub-metric for one ticker
(ZScoreCalculator.py dataclass MetricZVector); the dicts are association
lists in insertion order. -/
structure MetricZVector where
  raw : List (String × Cell)
  zscores : List (String × Cell)
  deriving Repr, DecidableEq

/-- Composite score plus detail (ZScoreCalculator.py dataclass
ZScoreResult). -/
structure ZScoreResult where
  composite : Cell
  detail : MetricZVector
  deriving Repr, DecidableEq

/-- Python getattr(obj, fld, np.nan) over an attribute table: the NaN
default when the attribute is absent. -/
def getattrNan (obj : String → Option PyVal) (fld : String) : PyVal :=
  (obj fld).getD .nan

/-- Conversion of a one-element numpy array to a Python scalar, as both
math.isnan and float perform it; any other size raises TypeError. Used
to embed the expressions math.isnan(composite) and float(composite) of
calc_value_z_scores, whose argument is the whole composite array. -/
def scalarOfArray (xs : List Cell) : Except EngineError Cell :=
  match xs with
  | [c] => .ok c
  | _ => .error (.typeError "only size-1 arrays can be converted to Python scalars")

/-- A stock as calc_value_z_scores reads it: a ticker and the
value_metrics object, an attribute table (none = attribute absent). -/
structure ValStock where
  ticker : String
  value_metrics : String → Option PyVal

/-- Embedding of calc_value_z_scores (ZScoreCalculator.py). The final
dict comprehension evaluates math.isnan(composite) and float(composite)
on the whole composite array (not composite[i]), which only converts for
a size-1 universe; scalarOfArray reproduces that, so the function
errors with TypeError whenever two or more stocks are supplied. -/
def calc_value_z_scores (sqrt : Rat → Rat) (stocks : List ValStock) :
    Except EngineError (List (String × ZScoreResult)) :=
  let tickers := stocks.map (·.ticker)
  let pe_t := stocks.map (fun s => nan_safe (getattrNan s.value_metrics "pe_trailing"))
  let pe_f := stocks.map (fun s => nan_safe (getattrNan s.value_metrics "pe_forward"))
  let ebit_tev := stocks.map (fun s => nan_safe (getattrNan s.value_metrics "ebit_to_tev"))
  let pb_col := stocks.map (fun s => nan_safe (getattrNan s.value_metrics "pb_ratio"))
  let pe_t_inv := pe_t.map (Option.map (fun v => v * (-1)))
  let pe_f_inv := pe_f.map (Option.map (fun v => v * (-1)))
  let pb_inv := pb_col.map (Option.map (fun v => v * (-1)))
  let z_pe_t := _zscore sqrt pe_t_inv
  let z_pe_f := _zscore sqrt pe_f_inv
  let z_ebit := _zscore sqrt ebit_tev
  let z_pb := _zscore sqrt pb_inv
  let composite := nanmeanAxis0 [z_pe_t, z_pe_f, z_ebit, z_pb] tickers.length
  tickers.enum.mapM (fun p =>
    match scalarOfArray composite with
    | .error e => .error e
    | .ok comp =>
      .ok (p.2,
        { composite := comp,
          detail :=
            { raw := [("PE_trailing", colGet pe_t p.1), ("PE_forward", colGet pe_f p.1),
                ("EBIT_to_TEV", colGet ebit_tev p.1), ("PB_ratio", colGet pb_col p.1)],
              zscores := [("z_PE_trailing", colGet z_pe_t p.1),
                ("z_PE_forward", colGet z_pe_f p.1), ("z_EBIT_to_TEV", colGet z_ebit p.1),
                ("z_PB_ratio", colGet z_pb p.1)] } }))

/-- A stock as _generic_group_z reads it: a ticker and, per attribute
group name, an attribute table for the group object (none = field absent
on the group object; the group object itself is assumed present, since
getattr(s, attr_group) is called without a default). -/
structure GStock where
  ticker : String
  groups : String → String → Option PyVal

/-- Embedding of _generic_group_z (ZScoreCalculator.py): builds the raw
matrix (one row per field) via getattr with NaN default and _nan_safe,
z-scores each row, takes the nanmean across rows per ticker, and emits
per ticker the composite (correctly indexed at i here) plus the raw and
z-score dicts, built field-by-field in order. -/
def _generic_group_z (sqrt : Rat → Rat) (stocks : List GStock)
    (attr_group : String) (fields : List String) : List (String × ZScoreResult) :=
  let tickers := stocks.map (·.ticker)
  let raw_np := fields.map
    (fun fld => stocks.map (fun s => nan_safe (getattrNan (s.groups attr_group) fld)))
  let z_np := raw_np.map (_zscore sqrt)
  let composite := nanmeanAxis0 z_np tickers.length
  tickers.enum.map (fun p =>
    (p.2,
      { composite := colGet composite p.1,
        detail :=
          { raw := (fields.zip raw_np).map (fun q => (q.1, colGet q.2 p.1)),
            zscores := (fields.zip z_np).map (fun q => (s!"z_{q.1}", colGet q.2 p.1)) } }))

/-- Embedding of calc_profitability_z_scores (ZScoreCalculator.py); the
unused profitability_cfg parameter is omitted. -/
def calc_profitability_z_scores (sqrt : Rat → Rat) (stocks : List GStock) :
    List (String × ZScoreResult) :=
  _generic_group_z sqrt stocks "profitability_metrics"
    ["gpoa_ttm", "roe_ttm", "roa_ttm", "cfoa", "gpmar_ttm"]

/-- Embedding of calc_growth_z_scores (ZScoreCalculator.py); the unused
growth_cfg parameter is omitted. -/
def calc_growth_z_scores (sqrt : Rat → Rat) (stocks : List GStock) :
    List (String × ZScoreResult) :=
  _generic_group_z sqrt stocks "growth_metrics"
    ["gpoa_growth", "roe_growth", "roa_growth", "cfoa_growth", "gpmar_growth"]

/-! ## Theorems -/

/-- C10: get_net_income called with a reporting_period that is neither
ttm nor annual (case-insensitive) returns None without raising and
without touching the stock financial data: the result is .ok none and is
independent of the stock object. -/
theorem get_net_income_unsupported_period (stock stock2 : StockFin)
    (ticker reporting_period : String)
    (h1 : pyLower reporting_period ≠ "ttm")
    (h2 : pyLower reporting_period ≠ "annual") :
    get_net_income stock ticker reporting_period = .ok none ∧
    get_net_income stock ticker reporting_period =
      get_net_income stock2 ticker reporting_period := by
  unfold get_net_income
  rw [if_neg h1, if_neg h2, if_neg h1, if_neg h2]
  exact ⟨rfl, rfl⟩

/-- Witness for C10 at the concrete period quarterly and two different
stock objects. -/
theorem get_net_income_unsupported_period_witness :
    get_net_income ⟨none, none, none⟩ "AAPL" "quarterly" = .ok none ∧
    get_net_income ⟨none, none, none⟩ "AAPL" "quarterly" =
      get_net_income ⟨some [], some [], some []⟩ "AAPL" "quarterly" :=
  get_net_income_unsupported_period ⟨none, none, none⟩ ⟨some [], some [], some []⟩
    "AAPL" "quarterly" (by decide) (by decide)

/-- C1 (code bug): on a universe of two stocks, calc_value_z_scores does
not return the per-ticker mapping: the dict comprehension evaluates
math.isnan on the whole composite array, which raises TypeError for any
universe of two or more stocks (the source passes composite, not
composite[i]). -/
theorem calc_value_z_scores_two_stocks_raises :
    calc_value_z_scores (fun x => x)
      [⟨"AAA", fun _ => some (.num 1)⟩, ⟨"BBB", fun _ => some (.num 2)⟩] =
    .error (.typeError "only size-1 arrays can be converted to Python scalars") := by
  rfl

/-- C3 (code bug): with earnings_type eps and a non-empty annual statement
whose schema lacks Basic EPS, the EPSCalcError raised at the missing
field is caught by the blanket handler of get_earnings and re-raised as
NetIncomeCalcError, so the error that propagates is of the Net-Income
kind, not the EPS kind the claim (and the source docstring) states. -/
theorem get_earnings_eps_missing_field_wrong_kind :
    get_earnings ⟨false, none, some []⟩ "AAPL" "eps" 5 none =
    .error (.netIncomeCalcError
      "Error fetching Earnings (AAPL): Cannot find Basic EPS data for AAPL.") := by
  rfl

/-- C4 counterexample: at earnings list [1, 0] (length 2), the claimed
growth list of length 1 is not returned; the zero prior-period value
makes the division raise, and the blanket handler re-raises
EarningsGrowthCalcError wrapping the ZeroDivisionError text. -/
theorem calc_earnings_growth_zero_prior_counterexample :
    calc_earnings_growth "TST" (some [1, 0]) =
    .error (.earningsGrowthCalcError
      "Error calculating Earnings Growth for TST: float division by zero") := by
  rfl

/-- When every prior-period value (the tail of the list) is nonzero, the
growth loop succeeds and produces the pairwise growth list. -/
theorem growthLoop_ok (es : List Rat) (h : ∀ x ∈ es.tail, x ≠ 0) :
    growthLoop es = .ok ((es.zip es.tail).map (fun p => (p.1 - p.2) / |p.2|)) := by
  induction es with
  | nil => rfl
  | cons a rest ih =>
    cases rest with
    | nil => rfl
    | cons b rest2 =>
      have hb : b ≠ 0 := h b (by simp)
      have habs : ¬(|b| = 0) := by simpa using hb
      have htail : ∀ x ∈ (b :: rest2).tail, x ≠ 0 := by
        intro x hx
        exact h x (by simp at hx ⊢; exact Or.inr hx)
      have ih2 := ih htail
      simp only [growthLoop, if_neg habs, ih2, List.zip_cons_cons, List.map_cons,
        List.tail_cons]

/-- When some prior-period value is zero, the growth loop raises the
zero-division text. -/
theorem growthLoop_err (es : List Rat) (h : ∃ x ∈ es.tail, x = 0) :
    growthLoop es = .error "float division by zero" := by
  induction es with
  | nil => simp at h
  | cons a rest ih =>
    cases rest with
    | nil => simp at h
    | cons b rest2 =>
      by_cases hb : |b| = 0
      · simp only [growthLoop, if_pos hb]
      · have hbne : b ≠ 0 := by simpa using hb
        have h2 : ∃ x ∈ (b :: rest2).tail, x = 0 := by
          simp only [List.tail_cons] at h ⊢
          rcases h with ⟨x, hx, hx0⟩
          rcases List.mem_cons.mp hx with hx1 | hx1
          · exact absurd (hx1 ▸ hx0) hbne
          · exact ⟨x, hx1, hx0⟩
        simp only [growthLoop, if_neg hb, ih h2]

/-- Index form of the pairwise growth list. -/
theorem growthList_get? (es : List Rat) (i : Nat) (h : i + 1 < es.length) :
    ((es.zip es.tail).map (fun p => (p.1 - p.2) / |p.2|)).get? i =
      some ((es.getD i 0 - es.getD (i + 1) 0) / |es.getD (i + 1) 0|) := by
  induction es generalizing i with
  | nil => simp at h
  | cons a rest ih =>
    cases rest with
    | nil => simp at h
    | cons b rest2 =>
      cases i with
      | zero => simp
      | succ i =>
        have h2 : i + 1 < (b :: rest2).length := by
          simpa using Nat.lt_of_succ_lt_succ h
        have := ih i h2
        simpa using this

/-- C4 (amended): for an earnings list of length L, calc_earnings_growth
raises EarningsGrowthCalcError naming the ticker when L is below 2;
when L is at least 2 and no prior-period (denominator) value is zero it
returns a growth list of length L - 1 in the same order with
growth_i = (value_i - value_at(i+1)) / abs(value_at(i+1)); when L is at
least 2 and some prior-period value is zero, the division raises and the
handler re-raises EarningsGrowthCalcError naming the ticker and wrapping
the zero-division failure. -/
theorem calc_earnings_growth_spec (ticker : String) (es : List Rat) :
    (es.length < 2 →
      calc_earnings_growth ticker (some es) =
        .error (.earningsGrowthCalcError
          (growthWrapMsg ticker (growthInsufficientMsg ticker)))) ∧
    (2 ≤ es.length → (∀ x ∈ es.tail, x ≠ 0) →
      ∃ gs, calc_earnings_growth ticker (some es) = .ok gs ∧
        gs.length = es.length - 1 ∧
        ∀ i, i + 1 < es.length →
          gs.get? i =
            some ((es.getD i 0 - es.getD (i + 1) 0) / |es.getD (i + 1) 0|)) ∧
    (2 ≤ es.length → (∃ x ∈ es.tail, x = 0) →
      calc_earnings_growth ticker (some es) =
        .error (.earningsGrowthCalcError
          (growthWrapMsg ticker "float division by zero"))) := by
  refine ⟨?_, ?_, ?_⟩
  · intro h
    simp only [calc_earnings_growth, MIN_EARNINGS_DATA_POINTS, if_pos h]
  · intro h hz
    refine ⟨(es.zip es.tail).map (fun p => (p.1 - p.2) / |p.2|), ?_, ?_, ?_⟩
    · simp only [calc_earnings_growth, MIN_EARNINGS_DATA_POINTS,
        if_neg (not_lt.mpr h), growthLoop_ok es hz]
    · simp only [List.length_map, List.length_zip, List.length_tail]
      omega
    · intro i hi
      exact growthList_get? es i hi
  · intro h hz
    simp only [calc_earnings_growth, MIN_EARNINGS_DATA_POINTS,
      if_neg (not_lt.mpr h), growthLoop_err es hz]

/-- Witness for C4 at the Scenario B input [2, -1] (growth 3, not -3) and
at the short input [5]. -/
theorem calc_earnings_growth_spec_witness :
    calc_earnings_growth "TST" (some [2, -1]) = .ok [3] ∧
    calc_earnings_growth "TST" (some [5]) =
      .error (.earningsGrowthCalcError
        "Error calculating Earnings Growth for TST: Not enough data to calculate Earnings Growth (Ticker: TST). At least 2 periods are required.") := by
  constructor
  · obtain ⟨gs, h1, h2, h3⟩ :=
      (calc_earnings_growth_spec "TST" [2, -1]).2.1 (by norm_num)
        (by intro x hx; simp at hx; subst hx; norm_num)
    obtain ⟨a, rfl⟩ := List.length_eq_one.mp (by simpa using h2)
    have h0 := h3 0 (by norm_num)
    simp only [List.get?] at h0
    have ha : a = 3 := by
      have : ((2 : Rat) - (-1)) / |(-1 : Rat)| = 3 := by norm_num
      simp only [List.getD] at h0
      simp at h0
      rw [h0]
      norm_num
    rw [h1, ha]
  · have h := (calc_earnings_growth_spec "TST" [5]).1 (by norm_num)
    rw [h]
    rfl

/-- C5: calc_evar raises EVARCalcError when the growth series is missing
or has fewer than 2 observations, and otherwise returns exactly the
square root of the sum of squared deviations from the mean divided by
n - 1 (the sample divisor), with sqrt standing for np.sqrt. Over exact
rationals the computation after the length check is total, so the
clause wrapping a numeric failure in EVARCalcError cannot fire. -/
theorem calc_evar_spec (sqrt : Rat → Rat) (ticker : String) :
    (calc_evar sqrt ticker none =
      .error (.evarCalcError
        s!"Cannot calculcate EVAR. No Earnings Growth data available (Ticker: {ticker}).")) ∧
    (∀ gs : List Rat, gs.length < 2 →
      calc_evar sqrt ticker (some gs) =
        .error (.evarCalcError
          s!"Not enough Earnings Growth data to calculate EVAR for {ticker}. At least {EARNINGS_GROWTH_MIN_DATA_POINTS} data points are required.")) ∧
    (∀ gs : List Rat, 2 ≤ gs.length →
      calc_evar sqrt ticker (some gs) =
        .ok (sqrt ((gs.map (fun g => (g - listMean gs) ^ 2)).sum /
          ((gs.length : Rat) - 1)))) := by
  refine ⟨rfl, ?_, ?_⟩
  · intro gs h
    have h2 : gs.length < EARNINGS_GROWTH_MIN_DATA_POINTS := by
      simpa [EARNINGS_GROWTH_MIN_DATA_POINTS] using h
    simp only [calc_evar, if_pos h2]
  · intro gs h
    have h2 : ¬(gs.length < EARNINGS_GROWTH_MIN_DATA_POINTS) := by
      simp only [EARNINGS_GROWTH_MIN_DATA_POINTS]
      omega
    simp only [calc_evar, if_neg h2]
    congr 2
    rw [Nat.cast_sub (by omega : 1 ≤ gs.length)]
    rw [List.sum_eq_foldl, List.foldl_map]
    norm_num

/-- Witness for C5: a growth series of length 1 raises, length 2 succeeds
with the exact sample formula (here sqrt is instantiated by the identity;
the variance of [0, 2] is 2, so the result is id 2). -/
theorem calc_evar_spec_witness :
    calc_evar id "TST2" (some [5]) =
      .error (.evarCalcError
        "Not enough Earnings Growth data to calculate EVAR for TST2. At least 2 data points are required.") ∧
    calc_evar id "TST2" (some [0, 2]) = .ok 2 := by
  constructor
  · have h := (calc_evar_spec id "TST2").2.1 [5] (by norm_num)
    rw [h]
    rfl
  · have h := (calc_evar_spec id "TST2").2.2 [0, 2] (by norm_num)
    rw [h]
    norm_num [listMean]

/-- C7: the TTM operations return the sum of the 4 most recent valid
quarterly observations and raise an insufficient-data error naming the
ticker and the required quarter count when fewer than 4 valid quarterly
observations exist; stated for calc_eps_ttm (at its default of 4
trailing quarters, including the missing-column error) and for the TTM
branch of get_net_income. -/
theorem ttm_spec (stock : StockFin) (ticker : String) :
    (stock.quarterlyBasicEPS = none →
      calc_eps_ttm stock ticker =
        .error (.epsCalcError
          s!"Cannot calculate Trailing EPS! EPS data is missing (Ticker: {ticker}).")) ∧
    (∀ col, stock.quarterlyBasicEPS = some col →
      (4 ≤ (dropNan col).length →
        calc_eps_ttm stock ticker = .ok ((dropNan col).take 4).sum) ∧
      ((dropNan col).length < 4 →
        calc_eps_ttm stock ticker =
          .error (.epsCalcError
            s!"Cannot calculate Trailing EPS! Not enough EPS data for the last {(4 : Nat)} quarters (Ticker: {ticker})."))) ∧
    (∀ col, stock.quarterlyNetIncome = some col →
      (4 ≤ (dropNan col).length →
        get_net_income stock ticker "TTM" = .ok (some ((dropNan col).take 4).sum)) ∧
      ((dropNan col).length < 4 →
        get_net_income stock ticker "TTM" =
          .error (.valueError
            s!"Cannot calculate Net Income TTM! Not enough Net Income Quarterly data is available (Ticker: {ticker}). \n Data for at least 4 quarters is required ."))) := by
  have hl : pyLower "TTM" = "ttm" := rfl
  refine ⟨?_, ?_, ?_⟩
  · intro h
    simp only [calc_eps_ttm, h]
  · intro col h
    constructor
    · intro h4
      simp only [calc_eps_ttm, h, if_neg (not_lt.mpr h4)]
    · intro h4
      simp only [calc_eps_ttm, h, if_pos h4]
  · intro col h
    constructor
    · intro h4
      simp only [get_net_income, hl, if_pos rfl, if_true, h, if_neg (not_lt.mpr h4)]
    · intro h4
      simp only [get_net_income, hl, if_pos rfl, if_true, h, if_pos h4]

/-- Witness for C7 at the Scenario A input: quarterly EPS
[1.0, 1.1, 0.9, 1.0, 0.8] most-recent-first gives TTM 4.0, and a
3-quarter series raises the insufficient-data error. -/
theorem ttm_spec_witness :
    calc_eps_ttm
      ⟨some [some 1, some (11/10), some (9/10), some 1, some (4/5)], none, none⟩
      "AAPL" = .ok 4 ∧
    calc_eps_ttm ⟨some [some 1, some 1, some 1], none, none⟩ "AAPL" =
      .error (.epsCalcError
        "Cannot calculate Trailing EPS! Not enough EPS data for the last 4 quarters (Ticker: AAPL).") := by
  constructor
  · have h := (((ttm_spec
      ⟨some [some 1, some (11/10), some (9/10), some 1, some (4/5)], none, none⟩
      "AAPL").2.1) [some 1, some (11/10), some (9/10), some 1, some (4/5)] rfl).1
      (by norm_num [dropNan, List.filterMap_cons, List.filterMap_nil])
    rw [h]
    norm_num [dropNan, List.filterMap_cons, List.filterMap_nil]
  · have h := (((ttm_spec ⟨some [some 1, some 1, some 1], none, none⟩
      "AAPL").2.1) [some 1, some 1, some 1] rfl).2 (by norm_num [dropNan, List.filterMap_cons, List.filterMap_nil])
    rw [h]
    rfl

/-- When the try body of get_earnings succeeds, the blanket handler is
not entered and get_earnings returns the same value. -/
theorem get_earnings_of_try_ok {stmt : YFAnnual} {ticker earnings_type : String}
    {n : Nat} {sec : Option (List Cell)} {v : Option (List Rat)}
    (h : get_earnings_try stmt ticker earnings_type n sec = .ok v) :
    get_earnings stmt ticker earnings_type n sec = .ok v := by
  unfold get_earnings
  rw [h]

/-- C2: get_earnings follows the reconciliation precedence, in both the
eps and the net_income domain. Writing P for the primary column of the
non-empty Yahoo statement and vp for its valid (non-NaN) observations:
if n valid observations exist in P, the first n are returned and the
secondary response is never consulted (the result is the same for every
secondary); if vp is short and the secondary returns no data, vp is
returned unmodified without raising; if the secondary's valid count
strictly exceeds vp's, the secondary's first n valid observations are
returned when it has at least n, else all of them; otherwise vp is
returned unmodified. -/
theorem get_earnings_reconciliation (stmt : YFAnnual) (ticker : String) (n : Nat)
    (hne : stmt.isEmpty = false) :
    (∀ P, stmt.basicEPS = some P →
      (n ≤ (dropNan P).length →
        ∀ S1 S2 : Option (List Cell),
          get_earnings stmt ticker "eps" n S1 =
            .ok (some ((dropNan P).take n)) ∧
          get_earnings stmt ticker "eps" n S1 =
            get_earnings stmt ticker "eps" n S2) ∧
      ((dropNan P).length < n →
        get_earnings stmt ticker "eps" n none = .ok (some (dropNan P))) ∧
      ((dropNan P).length < n → ∀ S : List Cell,
        (dropNan P).length < (dropNan S).length →
        get_earnings stmt ticker "eps" n (some S) =
          .ok (some (if n ≤ (dropNan S).length then (dropNan S).take n
            else dropNan S))) ∧
      ((dropNan P).length < n → ∀ S : List Cell,
        (dropNan S).length ≤ (dropNan P).length →
        get_earnings stmt ticker "eps" n (some S) = .ok (some (dropNan P)))) ∧
    (∀ P, stmt.netIncome = some P →
      (n ≤ (dropNan P).length →
        ∀ S1 S2 : Option (List Cell),
          get_earnings stmt ticker "net_income" n S1 =
            .ok (some ((dropNan P).take n)) ∧
          get_earnings stmt ticker "net_income" n S1 =
            get_earnings stmt ticker "net_income" n S2) ∧
      ((dropNan P).length < n →
        get_earnings stmt ticker "net_income" n none = .ok (some (dropNan P))) ∧
      ((dropNan P).length < n → ∀ S : List Cell,
        (dropNan P).length < (dropNan S).length →
        get_earnings stmt ticker "net_income" n (some S) =
          .ok (some (if n ≤ (dropNan S).length then (dropNan S).take n
            else dropNan S))) ∧
      ((dropNan P).length < n → ∀ S : List Cell,
        (dropNan S).length ≤ (dropNan P).length →
        get_earnings stmt ticker "net_income" n (some S) =
          .ok (some (dropNan P)))) := by
  constructor
  · intro P hP
    refine ⟨?_, ?_, ?_, ?_⟩
    · intro h1
      have key : ∀ S : Option (List Cell),
          get_earnings stmt ticker "eps" n S = .ok (some ((dropNan P).take n)) := by
        intro S
        apply get_earnings_of_try_ok
        simp only [get_earnings_try, hne, Bool.false_eq_true, if_false,
          if_pos rfl, if_true, hP]
        rw [if_pos h1]
      exact fun S1 S2 => ⟨key S1, (key S1).trans (key S2).symm⟩
    · intro h1
      apply get_earnings_of_try_ok
      simp only [get_earnings_try, hne, Bool.false_eq_true, if_false,
        if_pos rfl, if_true, hP]
      rw [if_neg (not_le.mpr h1)]
    · intro h1 S hS
      apply get_earnings_of_try_ok
      simp only [get_earnings_try, hne, Bool.false_eq_true, if_false,
        if_pos rfl, if_true, hP]
      rw [if_neg (not_le.mpr h1), if_pos hS]
      by_cases h2 : n ≤ (dropNan S).length
      · rw [if_pos h2, if_pos h2]
      · rw [if_neg h2, if_neg h2, List.take_length]
    · intro h1 S hS
      apply get_earnings_of_try_ok
      simp only [get_earnings_try, hne, Bool.false_eq_true, if_false,
        if_pos rfl, if_true, hP]
      rw [if_neg (not_le.mpr h1), if_neg (not_lt.mpr hS)]
  · intro P hP
    have hni : ("net_income" = "eps") = False := by simp
    refine ⟨?_, ?_, ?_, ?_⟩
    · intro h1
      have key : ∀ S : Option (List Cell),
          get_earnings stmt ticker "net_income" n S =
            .ok (some ((dropNan P).take n)) := by
        intro S
        apply get_earnings_of_try_ok
        simp only [get_earnings_try, hne, Bool.false_eq_true, if_false, hni,
          if_pos rfl, if_true, hP]
        rw [if_pos h1]
      exact fun S1 S2 => ⟨key S1, (key S1).trans (key S2).symm⟩
    · intro h1
      apply get_earnings_of_try_ok
      simp only [get_earnings_try, hne, Bool.false_eq_true, if_false, hni,
        if_pos rfl, if_true, hP]
      rw [if_neg (not_le.mpr h1)]
    · intro h1 S hS
      apply get_earnings_of_try_ok
      simp only [get_earnings_try, hne, Bool.false_eq_true, if_false, hni,
        if_pos rfl, if_true, hP]
      rw [if_neg (not_le.mpr h1), if_pos hS]
      by_cases h2 : n ≤ (dropNan S).length
      · rw [if_pos h2, if_pos h2]
      · rw [if_neg h2, if_neg h2, List.take_length]
    · intro h1 S hS
      apply get_earnings_of_try_ok
      simp only [get_earnings_try, hne, Bool.false_eq_true, if_false, hni,
        if_pos rfl, if_true, hP]
      rw [if_neg (not_le.mpr h1), if_neg (not_lt.mpr hS)]

/-- Witness for C2 at Scenario C: the primary has 3 valid annual values,
the horizon is 5, the secondary returns 5 valid values, so the
reconciled series is the secondary's first 5. -/
theorem get_earnings_reconciliation_witness :
    get_earnings ⟨false, some [some 1, some 2, some 3], some []⟩ "MSFT" "eps" 5
      (some [some 10, some 20, some 30, some 40, some 50]) =
      .ok (some [10, 20, 30, 40, 50]) := by
  have h := ((get_earnings_reconciliation
      ⟨false, some [some 1, some 2, some 3], some []⟩ "MSFT" 5 rfl).1
      [some 1, some 2, some 3] rfl).2.2.1
  have h2 := h (by norm_num [dropNan, List.filterMap_cons, List.filterMap_nil])
      [some 10, some 20, some 30, some 40, some 50]
      (by norm_num [dropNan, List.filterMap_cons, List.filterMap_nil])
  rw [h2]
  norm_num [dropNan, List.filterMap_cons, List.filterMap_nil]

/-- The population variance of a list of rationals is nonnegative. -/
theorem popVar_nonneg (xs : List Rat) : 0 ≤ popVar xs := by
  unfold popVar
  apply div_nonneg
  · apply List.sum_nonneg
    intro x hx
    simp only [List.mem_map] at hx
    obtain ⟨y, -, rfl⟩ := hx
    positivity
  · positivity

/-- C6: under the hypothesis that sqrt vanishes exactly at zero on
nonnegative inputs (true of the real square root used by numpy std),
_zscore returns a column of the same length and order as the input;
when fewer than 2 valid values exist or the population variance (hence
the ddof = 0 standard deviation) of the valid values is exactly zero,
every entry is NaN; otherwise every valid value v maps to
(v - mean) / std of the valid values and every invalid entry stays NaN,
position by position. -/
theorem _zscore_spec (sqrt : Rat → Rat)
    (hsqrt : ∀ x : Rat, 0 ≤ x → (sqrt x = 0 ↔ x = 0)) (column : List Cell) :
    ((_zscore sqrt column).length = column.length) ∧
    ((dropNan column).length < 2 ∨ popVar (dropNan column) = 0 →
      _zscore sqrt column = column.map (fun _ => none)) ∧
    (2 ≤ (dropNan column).length → popVar (dropNan column) ≠ 0 →
      _zscore sqrt column = column.map (fun c => c.map (fun v =>
        (v - listMean (dropNan column)) / sqrt (popVar (dropNan column))))) := by
  refine ⟨?_, ?_, ?_⟩
  · unfold _zscore
    by_cases h1 : (dropNan column).length < 2
    · rw [if_pos h1, List.length_map]
    · rw [if_neg h1]
      by_cases h2 : sqrt (popVar (dropNan column)) = 0
      · rw [if_pos h2, List.length_map]
      · rw [if_neg h2, List.length_map]
  · intro h
    unfold _zscore
    rcases h with h1 | h1
    · rw [if_pos h1]
    · by_cases h2 : (dropNan column).length < 2
      · rw [if_pos h2]
      · rw [if_neg h2,
          if_pos ((hsqrt (popVar (dropNan column)) (popVar_nonneg _)).mpr h1)]
  · intro h1 h2
    unfold _zscore
    rw [if_neg (not_lt.mpr h1)]
    rw [if_neg (fun hc =>
      h2 ((hsqrt (popVar (dropNan column)) (popVar_nonneg _)).mp hc))]

/-- Witness for C6 (with sqrt instantiated by the identity, which
vanishes exactly at zero): the column [1, NaN, 3] has valid mean 2 and
population variance 1, so it maps to [-1, NaN, 1]; the constant column
[5, 5] has zero variance and maps to [NaN, NaN]. -/
theorem _zscore_spec_witness :
    _zscore (fun x => x) [some 1, none, some 3] = [some (-1), none, some 1] ∧
    _zscore (fun x => x) [some 5, some 5] = [none, none] := by
  constructor
  · have h := (_zscore_spec (fun x => x) (fun x _ => Iff.rfl)
      [some 1, none, some 3]).2.2
      (by norm_num [dropNan, List.filterMap_cons, List.filterMap_nil])
      (by norm_num [popVar, listMean, dropNan, List.filterMap_cons,
        List.filterMap_nil])
    rw [h]
    norm_num [listMean, popVar, dropNan, List.filterMap_cons, List.filterMap_nil]
  · have h := (_zscore_spec (fun x => x) (fun x _ => Iff.rfl)
      [some 5, some 5]).2.1
      (Or.inr (by norm_num [popVar, listMean, dropNan, List.filterMap_cons,
        List.filterMap_nil]))
    rw [h]
    rfl

/-- Entry i of a map over an enumerated list. -/
theorem enum_map_get? {α β : Type} (l : List α) (f : Nat × α → β) (i : Nat)
    (hi : i < l.length) :
    (l.enum.map f).get? i = some (f (i, l.get ⟨i, hi⟩)) := by
  rw [List.get?_map, List.get?_enum, List.get?_eq_get hi]
  rfl

/-- Entry i of nanmeanAxis0 is the nanmean of the entries at index i of
the rows. -/
theorem nanmeanAxis0_colGet (rows : List (List Cell)) (ncols i : Nat)
    (hi : i < ncols) :
    colGet (nanmeanAxis0 rows ncols) i =
      nanmean (rows.map (fun r => colGet r i)) := by
  unfold colGet nanmeanAxis0
  rw [List.get?_map, List.get?_range hi]
  rfl

/-- C8: in _generic_group_z the composite assigned to the ticker at
position i is the arithmetic mean of that ticker's non-NaN z-scores
across the sub-metric columns — NaN entries are ignored entirely, and
the composite is NaN exactly when every sub-metric z-score of that
ticker is NaN; and at the Scenario D z-columns [1, NaN, -1] and
[NaN, 0.5, 1] the per-ticker composites of the nanmean step are
[1, 0.5, 0]. -/
theorem _generic_group_z_composite (sqrt : Rat → Rat) (stocks : List GStock)
    (attr_group : String) (fields : List String) (i : Nat)
    (hi : i < stocks.length) :
    ((((_generic_group_z sqrt stocks attr_group fields).get? i).map
        (fun e => e.2.composite)) =
      some (
        let zc := (fields.map (fun fld => _zscore sqrt (stocks.map (fun s =>
          nan_safe (getattrNan (s.groups attr_group) fld))))).map
            (fun r => colGet r i)
        if (dropNan zc).length = 0 then none
        else some ((dropNan zc).sum / ((dropNan zc).length : Rat)))) ∧
    nanmeanAxis0 [[some 1, none, some (-1)], [none, some (1/2), some 1]] 3 =
      [some 1, some (1/2), some 0] := by
  constructor
  · have hti : i < (stocks.map (fun s => s.ticker)).length := by simpa using hi
    unfold _generic_group_z
    rw [enum_map_get? _ _ i hti]
    simp only [Option.map_some']
    rw [nanmeanAxis0_colGet _ _ i (by simpa using hi)]
    simp only [nanmean, List.map_map]
    rfl
  · simp only [nanmeanAxis0, nanmean, dropNan, colGet, List.range_succ,
      List.range_zero, List.map_cons, List.map_nil, List.filterMap_cons,
      List.filterMap_nil, List.nil_append, List.cons_append, List.get?]
    norm_num

/-- Witness for C8: a two-stock universe with raw values 1 and 3 on a
single sub-metric z-scores to [-1, 1], so the first ticker's composite
is the mean of its only available z-score, -1. -/
theorem _generic_group_z_composite_witness :
    (((_generic_group_z (fun x => x)
        [⟨"AAA", fun _ _ => some (.num 1)⟩, ⟨"BBB", fun _ _ => some (.num 3)⟩]
        "profitability_metrics" ["m"]).get? 0).map (fun e => e.2.composite)) =
      some (some (-1)) := by
  have h := (_generic_group_z_composite (fun x => x)
      [⟨"AAA", fun _ _ => some (.num 1)⟩, ⟨"BBB", fun _ _ => some (.num 3)⟩]
      "profitability_metrics" ["m"] 0 (by norm_num)).1
  rw [h]
  norm_num [_zscore, dropNan, listMean, popVar, colGet, getattrNan, nan_safe,
    List.filterMap_cons, List.filterMap_nil]

/-- C9: when the group object of the stock at position i lacks the
sub-metric attribute at position j, or holds None, a non-numeric value
or NaN there, the scoring pass does not raise: _generic_group_z still
emits one entry per stock (its keys are exactly the tickers, in order),
the entry for that stock carries its own ticker, and the raw value
recorded for that sub-metric is NaN, via the getattr default and
_nan_safe. -/
theorem scoring_partial_failure (sqrt : Rat → Rat) (stocks : List GStock)
    (attr_group : String) (fields : List String) (g : Option PyVal) (i j : Nat)
    (hi : i < stocks.length) (hj : j < fields.length)
    (hg : g = none ∨ g = some .none_ ∨ g = some .nonNumeric ∨ g = some .nan)
    (hval : (stocks.get ⟨i, hi⟩).groups attr_group (fields.get ⟨j, hj⟩) = g) :
    nan_safe (g.getD .nan) = none ∧
    (_generic_group_z sqrt stocks attr_group fields).map Prod.fst =
      stocks.map (fun s => s.ticker) ∧
    (((_generic_group_z sqrt stocks attr_group fields).get? i).map
        (fun e => (e.1, e.2.detail.raw.get? j))) =
      some ((stocks.get ⟨i, hi⟩).ticker, some (fields.get ⟨j, hj⟩, none)) := by
  have hns : nan_safe (g.getD .nan) = none := by
    rcases hg with rfl | rfl | rfl | rfl <;> rfl
  refine ⟨hns, ?_, ?_⟩
  · simp only [_generic_group_z, List.map_map]
    exact List.enum_map_snd _
  · have hti : i < (stocks.map (fun s => s.ticker)).length := by simpa using hi
    unfold _generic_group_z
    rw [enum_map_get? _ _ i hti]
    simp only [Option.map_some']
    have htick : (stocks.map (fun s => s.ticker)).get ⟨i, hti⟩ =
        (stocks.get ⟨i, hi⟩).ticker := by
      simp [List.get_map]
    rw [htick]
    have hjr : j < (fields.map (fun fld => stocks.map (fun s =>
        nan_safe (getattrNan (s.groups attr_group) fld)))).length := by
      simpa using hj
    have hz : ((fields.zip (fields.map (fun fld => stocks.map (fun s =>
        nan_safe (getattrNan (s.groups attr_group) fld))))).get? j) =
        some (fields.get ⟨j, hj⟩,
          (fields.map (fun fld => stocks.map (fun s =>
            nan_safe (getattrNan (s.groups attr_group) fld)))).get ⟨j, hjr⟩) := by
      rw [List.get?_zip_eq_some]
      exact ⟨List.get?_eq_get hj, List.get?_eq_get hjr⟩
    have hrow : (fields.map (fun fld => stocks.map (fun s =>
        nan_safe (getattrNan (s.groups attr_group) fld)))).get ⟨j, hjr⟩ =
        stocks.map (fun s =>
          nan_safe (getattrNan (s.groups attr_group) (fields.get ⟨j, hj⟩))) := by
      simp [List.get_map]
    have hcell : colGet (stocks.map (fun s =>
        nan_safe (getattrNan (s.groups attr_group) (fields.get ⟨j, hj⟩)))) i =
        none := by
      unfold colGet
      rw [List.get?_map, List.get?_eq_get hi]
      simp only [Option.map_some', Option.getD_some]
      rw [getattrNan, hval]
      exact hns
    simp only [List.get?_map, hz, hrow, Option.map_some', hcell]

/-- Witness for C9: the first stock holds a non-numeric value for the
sub-metric, the pass still emits both tickers and records NaN as that
stock's raw value. -/
theorem scoring_partial_failure_witness :
    nan_safe ((some PyVal.nonNumeric).getD PyVal.nan) = none ∧
    (_generic_group_z (fun x => x)
      [⟨"AAA", fun _ _ => some PyVal.nonNumeric⟩,
       ⟨"BBB", fun _ _ => some (PyVal.num 1)⟩]
      "profitability_metrics" ["gpoa_ttm"]).map Prod.fst = ["AAA", "BBB"] ∧
    (((_generic_group_z (fun x => x)
      [⟨"AAA", fun _ _ => some PyVal.nonNumeric⟩,
       ⟨"BBB", fun _ _ => some (PyVal.num 1)⟩]
      "profitability_metrics" ["gpoa_ttm"]).get? 0).map
        (fun e => (e.1, e.2.detail.raw.get? 0))) =
      some ("AAA", some ("gpoa_ttm", none)) :=
  scoring_partial_failure (fun x => x)
    [⟨"AAA", fun _ _ => some PyVal.nonNumeric⟩,
     ⟨"BBB", fun _ _ => some (PyVal.num 1)⟩]
    "profitability_metrics" ["gpoa_ttm"] (some PyVal.nonNumeric) 0 0
    (by norm_num) (by norm_num) (Or.inr (Or.inr (Or.inl rfl))) rfl
